import Mathlib

/-!
# view_asteroid: pose composition and frame broadcasting

A shallow embedding of `src/publish_asteroid_pose.cpp` and
`src/view_asteroid.cpp`.

Conventions of the embedding.

* Scalars (`double`, and the `float` locals of the publisher) are an arbitrary
  type `α`; arithmetic is the arithmetic of `α`.  The theorems about angles
  instantiate `α` with `ℝ`, so rounding and the `float` narrowing of `dt`,
  `roll` and `pitch` are idealised away.
* `cos`, `sin` and `M_PI` come from `<cmath>`; they are taken as a parameter
  (`CMath α`) and instantiated with `Real.cos`, `Real.sin`, `Real.pi`.
* Eigen, tf and the ROS message types are external libraries.  Of Eigen the
  quaternion constructor order `(w, x, y, z)`, the Hamilton product and the
  angle-axis conversion are modelled; of tf, a transform is the pair
  (origin, rotation) that `setOrigin` and `setRotation` were given, and the
  broadcaster appends the stamped transform to a log.
* `ros::Time::now()` reads a clock whose successive readings are arbitrary:
  the world carries the sequence of readings and the number of reads so far.
-/

namespace ViewAsteroid

/-! ## `<cmath>` -/

/-- The part of `<cmath>` the program uses. -/
structure CMath (α : Type) where
  cos : α → α
  sin : α → α
  M_PI : α

/-! ## Eigen -/

/-- `Eigen::Vector3d`; `mk` has the order of the three-scalar constructor. -/
structure Vector3d (α : Type) where
  x : α
  y : α
  z : α
deriving DecidableEq, Repr

/-- `Eigen::Vector3d::UnitX()`. -/
def Vector3d.UnitX {α : Type} [Zero α] [One α] : Vector3d α := ⟨1, 0, 0⟩

/-- `Eigen::Vector3d::UnitY()`. -/
def Vector3d.UnitY {α : Type} [Zero α] [One α] : Vector3d α := ⟨0, 1, 0⟩

/-- `Eigen::Vector3d::UnitZ()`. -/
def Vector3d.UnitZ {α : Type} [Zero α] [One α] : Vector3d α := ⟨0, 0, 1⟩

/-- `Eigen::Quaterniond`; `mk` has the order of the four-scalar constructor,
`Quaterniond(w, x, y, z)`. -/
structure Quaterniond (α : Type) where
  w : α
  x : α
  y : α
  z : α
deriving DecidableEq, Repr

/-- `Eigen::Quaterniond::operator*`: the Hamilton product. -/
def Quaterniond.mul {α : Type} [Ring α] (a b : Quaterniond α) : Quaterniond α :=
  { w := a.w * b.w - a.x * b.x - a.y * b.y - a.z * b.z
    x := a.w * b.x + a.x * b.w + a.y * b.z - a.z * b.y
    y := a.w * b.y + a.y * b.w + a.z * b.x - a.x * b.z
    z := a.w * b.z + a.z * b.w + a.x * b.y - a.y * b.x }

/-- `Eigen::Quaterniond::squaredNorm`. -/
def Quaterniond.squaredNorm {α : Type} [Ring α] (q : Quaterniond α) : α :=
  q.w * q.w + q.x * q.x + q.y * q.y + q.z * q.z

/-- `Eigen::AngleAxisd(angle, axis)`. -/
structure AngleAxisd (α : Type) where
  angle : α
  axis : Vector3d α

/-- The assignment `Eigen::Quaterniond = Eigen::AngleAxisd`: with `ha` half the
angle, `w = cos ha` and the vector part is `sin ha * axis`. -/
def AngleAxisd.toQuaterniond {α : Type} [Field α] (m : CMath α) (aa : AngleAxisd α) :
    Quaterniond α :=
  let ha := aa.angle / 2
  { w := m.cos ha
    x := m.sin ha * aa.axis.x
    y := m.sin ha * aa.axis.y
    z := m.sin ha * aa.axis.z }

/-! ## geometry_msgs -/

/-- `geometry_msgs::Point`. -/
structure Point (α : Type) where
  x : α
  y : α
  z : α
deriving DecidableEq, Repr

/-- `geometry_msgs::Quaternion` (fields in message order). -/
structure Quaternion (α : Type) where
  x : α
  y : α
  z : α
  w : α
deriving DecidableEq, Repr

/-- `geometry_msgs::Pose`. -/
structure Pose (α : Type) where
  position : Point α
  orientation : Quaternion α
deriving DecidableEq, Repr

/-- Modelled from the spec: `helper::SetPoint` of `view_asteroid/helper.h`, which
is not among the sources.  The spec has the asteroid position "fixed at the
frame origin" where the code calls `SetPoint(0.0, 0.0, 0.0)`: the point whose
coordinates are the three arguments. -/
def SetPoint {α : Type} (x y z : α) : Point α := ⟨x, y, z⟩

/-! ## publish_asteroid_pose.cpp -/

/-- The constant `double omega = 0.25;` of `main`. -/
def omega {α : Type} [Field α] : α := 0.25

/-- The local `roll = omega*dt` of the loop body. -/
def roll {α : Type} [Field α] (dt : α) : α := omega * dt

/-- The local `pitch = -M_PI/2.0` of the loop body. -/
def pitch {α : Type} [Field α] (m : CMath α) : α := -m.M_PI / 2

/-- The locals `q1`, `q2`, `q` of the loop body: `q1` from the pitch about Y,
`q2` from the roll about X, `q = q1*q2`. -/
def asteroidQuat {α : Type} [Field α] (m : CMath α) (dt : α) : Quaterniond α :=
  let q1 := (AngleAxisd.mk (pitch m) Vector3d.UnitY).toQuaterniond m
  let q2 := (AngleAxisd.mk (roll dt) Vector3d.UnitX).toQuaterniond m
  q1.mul q2

/-- The component-wise copy `quat.x = q.x(); quat.y = q.y(); quat.z = q.z();
quat.w = q.w();` of an Eigen quaternion into a message. -/
def Quaterniond.toMsg {α : Type} (q : Quaterniond α) : Quaternion α :=
  { x := q.x, y := q.y, z := q.z, w := q.w }

/-- The asteroid pose built in one iteration of the loop of `main`, where `dt`
is the value of `(ros::Time::now() - t0).toSec()`. -/
def asteroidPose {α : Type} [Field α] (m : CMath α) (dt : α) : Pose α :=
  let q := asteroidQuat m dt
  let quat : Quaternion α := q.toMsg
  let pos := SetPoint (0 : α) 0 0
  { position := pos, orientation := quat }

/-- The camera pose built in one iteration of the loop of `main`. -/
def cameraPose {α : Type} [Field α] : Pose α :=
  let quat_cam : Quaternion α := { x := 0, y := 0, z := 0, w := 1 }
  let pos_cam := SetPoint (0 : α) 0 0
  { position := pos_cam, orientation := quat_cam }

/-- One iteration of the loop of `main`: the two poses it publishes, on the
asteroid topic and on the camera topic. -/
def publishTick {α : Type} [Field α] (m : CMath α) (dt : α) : Pose α × Pose α :=
  (asteroidPose m dt, cameraPose)

/-! ## The rotations the specification names -/

/-- The specification's `R_x(θ)`: the unit quaternion of a rotation by `θ`
about the X axis, `(w, x, y, z) = (cos(θ/2), sin(θ/2), 0, 0)`. -/
def R_x {α : Type} [Field α] (m : CMath α) (θ : α) : Quaterniond α :=
  ⟨m.cos (θ / 2), m.sin (θ / 2), 0, 0⟩

/-- The specification's `R_y(θ)`: `(w, x, y, z) = (cos(θ/2), 0, sin(θ/2), 0)`. -/
def R_y {α : Type} [Field α] (m : CMath α) (θ : α) : Quaterniond α :=
  ⟨m.cos (θ / 2), 0, m.sin (θ / 2), 0⟩

/-- The specification's rotation by `θ` about the Z axis:
`(w, x, y, z) = (cos(θ/2), 0, 0, sin(θ/2))`. -/
def R_z {α : Type} [Field α] (m : CMath α) (θ : α) : Quaterniond α :=
  ⟨m.cos (θ / 2), 0, 0, m.sin (θ / 2)⟩

/-! ## ros, tf and visualization_msgs -/

/-- `ros::Time`. -/
structure Time where
  sec : Nat
  nsec : Nat
deriving DecidableEq, Repr

/-- `ros::Duration`. -/
structure Duration where
  sec : Int
  nsec : Int
deriving DecidableEq, Repr

/-- `tf::Vector3`. -/
structure tfVector3 (α : Type) where
  x : α
  y : α
  z : α
deriving DecidableEq, Repr

/-- `tf::Quaternion`; `mk` has the order of its constructor, `(x, y, z, w)`. -/
structure tfQuaternion (α : Type) where
  x : α
  y : α
  z : α
  w : α
deriving DecidableEq, Repr

/-- `tf::Transform`, as the origin and the rotation it was given by
`setOrigin` and `setRotation`. -/
structure Transform (α : Type) where
  origin : tfVector3 α
  rotation : tfQuaternion α
deriving DecidableEq, Repr

/-- `tf::StampedTransform(transform, stamp, frame_id, child_frame_id)`. -/
structure StampedTransform (α : Type) where
  transform : Transform α
  stamp_ : Time
  frame_id_ : String
  child_frame_id_ : String
deriving DecidableEq, Repr

/-- `std_msgs::Header`. -/
structure Header where
  seq : Nat
  stamp : Time
  frame_id : String
deriving DecidableEq, Repr

/-- `geometry_msgs::Vector3`. -/
structure Vector3 (α : Type) where
  x : α
  y : α
  z : α
deriving DecidableEq, Repr

/-- `std_msgs::ColorRGBA`. -/
structure ColorRGBA (α : Type) where
  r : α
  g : α
  b : α
  a : α
deriving DecidableEq, Repr

/-- `visualization_msgs::Marker`, with every field of the message. -/
structure Marker (α : Type) where
  header : Header
  ns : String
  id : Int
  type : Int
  action : Int
  pose : Pose α
  scale : Vector3 α
  color : ColorRGBA α
  lifetime : Duration
  frame_locked : Bool
  points : List (Point α)
  colors : List (ColorRGBA α)
  text : String
  mesh_resource : String
  mesh_use_embedded_materials : Bool
deriving DecidableEq, Repr

/-- `visualization_msgs::Marker::MESH_RESOURCE`. -/
def Marker.MESH_RESOURCE : Int := 10

/-- `visualization_msgs::Marker::ADD`. -/
def Marker.ADD : Int := 0

/-- A default-constructed `visualization_msgs::Marker`: every field zero or
empty. -/
def Marker.new {α : Type} [Zero α] : Marker α :=
  { header := ⟨0, ⟨0, 0⟩, ""⟩
    ns := ""
    id := 0
    type := 0
    action := 0
    pose := ⟨⟨0, 0, 0⟩, ⟨0, 0, 0, 0⟩⟩
    scale := ⟨0, 0, 0⟩
    color := ⟨0, 0, 0, 0⟩
    lifetime := ⟨0, 0⟩
    frame_locked := false
    points := []
    colors := []
    text := ""
    mesh_resource := ""
    mesh_use_embedded_materials := false }

/-- `visualization_msgs::MarkerArray`. -/
structure MarkerArray (α : Type) where
  markers : List (Marker α)
deriving DecidableEq, Repr

/-- What the node acts on: the clock (`clock k` is the value of the `k`-th call
of `ros::Time::now()`, `reads` the number of calls so far), the transforms sent
through the `tf::TransformBroadcaster`s and the marker collections published on
`pub_vis`, both oldest first. -/
structure World (α : Type) where
  clock : Nat → Time
  reads : Nat
  tf_log : List (StampedTransform α)
  vis_log : List (MarkerArray α)

/-- `ros::Time::now()`. -/
def Time.now {α : Type} (w : World α) : Time × World α :=
  (w.clock w.reads, { w with reads := w.reads + 1 })

/-- `br.sendTransform(...)`. -/
def sendTransform {α : Type} (t : StampedTransform α) (w : World α) : World α :=
  { w with tf_log := w.tf_log ++ [t] }

/-- `pub_vis.publish(...)`. -/
def publish {α : Type} (a : MarkerArray α) (w : World α) : World α :=
  { w with vis_log := w.vis_log ++ [a] }

/-! ## view_asteroid.cpp -/

/-- The overload of `tf_pub` on `Eigen::Vector3d` and `Eigen::Quaterniond`. -/
def tf_pub_Eigen {α : Type} (point : Vector3d α) (quat : Quaterniond α)
    (parent_frame child_frame : String) (w : World α) : Time × World α :=
  let origin : tfVector3 α := ⟨point.x, point.y, point.z⟩
  let q : tfQuaternion α := tfQuaternion.mk quat.x quat.y quat.z quat.w
  let transform : Transform α := { origin := origin, rotation := q }
  let r := Time.now w
  let time_now := r.1
  (time_now, sendTransform ⟨transform, time_now, parent_frame, child_frame⟩ r.2)

/-- The overload of `tf_pub` on `geometry_msgs::Point` and
`geometry_msgs::Quaternion`. -/
def tf_pub {α : Type} (point : Point α) (quat : Quaternion α)
    (parent_frame child_frame : String) (w : World α) : Time × World α :=
  let origin : tfVector3 α := ⟨point.x, point.y, point.z⟩
  let q : tfQuaternion α := tfQuaternion.mk quat.x quat.y quat.z quat.w
  let transform : Transform α := { origin := origin, rotation := q }
  let r := Time.now w
  let time_now := r.1
  (time_now, sendTransform ⟨transform, time_now, parent_frame, child_frame⟩ r.2)

/-- `MeshMarker`: fills a fresh marker and pushes it onto `markerArray`. -/
def MeshMarker {α : Type} [Zero α] [Mul α] (point : Vector3d α) (quat : Quaterniond α)
    (frame_id ns file_3d : String) (size : α) (seqNumber : Int)
    (markerArray : MarkerArray α) (w : World α) : MarkerArray α × World α :=
  let marker : Marker α := Marker.new
  let marker := { marker with type := Marker.MESH_RESOURCE }
  let marker := { marker with mesh_resource := "package://view_asteroid/meshes/" ++ file_3d }
  let marker := { marker with action := Marker.ADD }
  let marker := { marker with color := ⟨0, 0, 0, 0⟩ }
  let marker := { marker with scale := ⟨size, size, size⟩ }
  let marker := { marker with ns := ns }
  let marker := { marker with header := { marker.header with frame_id := frame_id } }
  let r := Time.now w
  let marker := { marker with header := { marker.header with stamp := r.1 } }
  let marker := { marker with
    pose := { marker.pose with orientation := { x := quat.x, y := quat.y, z := quat.z, w := quat.w } } }
  let marker := { marker with mesh_use_embedded_materials := true }
  let position : Point α := ⟨size * point.x, size * point.y, size * point.z⟩
  let marker := { marker with pose := { marker.pose with position := position } }
  let marker := { marker with id := seqNumber }
  ({ markers := markerArray.markers ++ [marker] }, r.2)

/-- The assignment `marker.header.stamp = t`. -/
def Marker.setStamp {α : Type} (marker : Marker α) (t : Time) : Marker α :=
  { marker with header := { marker.header with stamp := t } }

/-- `poseCallback`: the result is `none` when `asteroid_marker.markers[0]` is
out of bounds. -/
def poseCallback {α : Type} (msg : Pose α) (asteroid_marker : MarkerArray α)
    (w : World α) : Option (MarkerArray α × World α) :=
  let r := tf_pub msg.position msg.orientation "world" "asteroid" w
  let time_now := r.1
  match asteroid_marker.markers with
  | [] => none
  | m0 :: rest =>
    let asteroid_marker : MarkerArray α := { markers := m0.setStamp time_now :: rest }
    some (asteroid_marker, publish asteroid_marker r.2)

/-- The local `q_cam1` of `camCallback`. -/
def q_cam1 {α : Type} [Field α] (m : CMath α) : Quaterniond α :=
  Quaterniond.mk (m.cos (m.M_PI / 4)) 0 (m.sin (m.M_PI / 4)) 0

/-- The local `q_cam2` of `camCallback`. -/
def q_cam2 {α : Type} [Field α] (m : CMath α) : Quaterniond α :=
  Quaterniond.mk (m.cos (m.M_PI / 4)) 0 0 (-m.sin (m.M_PI / 4))

/-- The local `q_cam = q_cam1*q_cam2` of `camCallback`. -/
def q_cam {α : Type} [Field α] (m : CMath α) : Quaterniond α :=
  (q_cam1 m).mul (q_cam2 m)

/-- `camCallback`. -/
def camCallback {α : Type} [Field α] (m : CMath α) (msg : Pose α) (cam_baseline : α)
    (w : World α) : World α :=
  let w1 := (tf_pub msg.position msg.orientation "world" "camera" w).2
  let cam1_position : Vector3d α := ⟨0, 0, 0⟩
  let w2 := (tf_pub_Eigen cam1_position (q_cam m) "camera" "camera1" w1).2
  let cam2_position : Vector3d α := ⟨0, cam_baseline, 0⟩
  (tf_pub_Eigen cam2_position (q_cam m) "camera" "camera2" w2).2

/-- The parameters `main` reads from the parameter server. -/
structure Params (α : Type) where
  cam_baseline : α
  file_3d : String
  offset_object : List α
  scale_object : α

/-- The state of the node between two callbacks: the marker collection bound
into `poseCallback`, the baseline bound into `camCallback`, and the world. -/
structure Node (α : Type) where
  asteroid_marker : MarkerArray α
  cam_baseline : α
  world : World α

/-- The part of `main` before the loop: builds the marker collection with one
call of `MeshMarker`.  The result is `none` when `offset` has fewer than three
entries (`offset[0]`, `offset[1]`, `offset[2]` out of bounds). -/
def mainSetup {α : Type} [Zero α] [One α] [Mul α] (p : Params α) (w : World α) :
    Option (Node α) :=
  match p.offset_object with
  | o0 :: o1 :: o2 :: _ =>
    let obj_offset : Vector3d α := ⟨o0, o1, o2⟩
    let q_0 : Quaterniond α := Quaterniond.mk 1 0 0 0
    let frame_id := "asteroid"
    let ns := "asteroid"
    let size := p.scale_object
    let seq_number : Int := 1
    let asteroid_marker : MarkerArray α := { markers := [] }
    let r := MeshMarker obj_offset q_0 frame_id ns p.file_3d size seq_number asteroid_marker w
    some { asteroid_marker := r.1, cam_baseline := p.cam_baseline, world := r.2 }
  | _ => none

/-- A message delivered to one of the two subscribers of `main`. -/
inductive Event (α : Type) where
  | objectPose (msg : Pose α)
  | cameraPose (msg : Pose α)

/-- The callback `ros::spinOnce()` runs for one delivered message. -/
def dispatch {α : Type} [Field α] (m : CMath α) (e : Event α) (n : Node α) :
    Option (Node α) :=
  match e with
  | Event.objectPose msg =>
    match poseCallback msg n.asteroid_marker n.world with
    | none => none
    | some (am, w) => some { n with asteroid_marker := am, world := w }
  | Event.cameraPose msg =>
    some { n with world := camCallback m msg n.cam_baseline n.world }

/-- The loop of `main` over the messages delivered, in order. -/
def spin {α : Type} [Field α] (m : CMath α) : List (Event α) → Node α → Option (Node α)
  | [], n => some n
  | e :: es, n =>
    match dispatch m e n with
    | none => none
    | some n1 => spin m es n1

/-! ## Predicates of the specification -/

/-- Two markers agree on every field other than `header.stamp`. -/
def Marker.sameExceptStamp {α : Type} (a b : Marker α) : Prop :=
  a.header.seq = b.header.seq ∧ a.header.frame_id = b.header.frame_id ∧
  a.ns = b.ns ∧ a.id = b.id ∧ a.type = b.type ∧ a.action = b.action ∧
  a.pose = b.pose ∧ a.scale = b.scale ∧ a.color = b.color ∧
  a.lifetime = b.lifetime ∧ a.frame_locked = b.frame_locked ∧
  a.points = b.points ∧ a.colors = b.colors ∧ a.text = b.text ∧
  a.mesh_resource = b.mesh_resource ∧
  a.mesh_use_embedded_materials = b.mesh_use_embedded_materials

/-- The (parent, child) frame names of a transform record. -/
def StampedTransform.framePair {α : Type} (t : StampedTransform α) : String × String :=
  (t.frame_id_, t.child_frame_id_)

/-- No record is orphaned: walking the (parent, child) pairs in order, each
parent is among the frames `known` so far, which every child then joins. -/
def noOrphan : List String → List (String × String) → Bool
  | _, [] => true
  | known, (p, c) :: rest => decide (p ∈ known) && noOrphan (c :: known) rest

/-- A clock that reads `(k, 0)` on its `k`-th reading, and nothing sent yet. -/
def World.start (α : Type) : World α :=
  { clock := fun k => ⟨k, 0⟩, reads := 0, tf_log := [], vis_log := [] }

/-- The pose of the specification's scenario: position `(1, 2, 3)`, identity
orientation. -/
def scenarioPose {α : Type} [Field α] : Pose α := ⟨⟨1, 2, 3⟩, ⟨0, 0, 0, 1⟩⟩

/-- A pose whose orientation `(x, y, z, w) = (0, 0, 0, 2)` has norm 2. -/
def nonUnitPose {α : Type} [Field α] : Pose α := ⟨⟨1, 2, 3⟩, ⟨0, 0, 0, 2⟩⟩

/-- The marker collection `main` builds in the specification's scenario:
scale 1, offset `(0, 0, 0)`. -/
def scenarioMarkers {α : Type} [Field α] : MarkerArray α :=
  (MeshMarker ⟨0, 0, 0⟩ (Quaterniond.mk 1 0 0 0) "asteroid" "asteroid" "asteroid.dae" 1 1
    { markers := [] } (World.start α)).1

/-! ## Lemmas on the primitives -/

theorem omega_real : (omega : ℝ) = 1 / 4 := by
  unfold omega; norm_num

theorem quat_ext {α : Type} (a b : Quaterniond α) (hw : a.w = b.w) (hx : a.x = b.x)
    (hy : a.y = b.y) (hz : a.z = b.z) : a = b := by
  cases a; cases b; simp_all

/-- The quaternion of the loop body, component by component, for any scalar
field and any `cos`, `sin`, `M_PI`. -/
theorem asteroidQuat_components {α : Type} [Field α] (m : CMath α) (dt : α) :
    asteroidQuat m dt =
      ⟨m.cos (-m.M_PI / 2 / 2) * m.cos (omega * dt / 2),
       m.cos (-m.M_PI / 2 / 2) * m.sin (omega * dt / 2),
       m.sin (-m.M_PI / 2 / 2) * m.cos (omega * dt / 2),
       -(m.sin (-m.M_PI / 2 / 2) * m.sin (omega * dt / 2))⟩ := by
  simp [asteroidQuat, AngleAxisd.toQuaterniond, Quaterniond.mul, pitch, roll,
    Vector3d.UnitX, Vector3d.UnitY]

theorem neg_pi_half_half : -Real.pi / 2 / 2 = -(Real.pi / 4) := by ring

theorem cos_pi4_sq : Real.cos (Real.pi / 4) * Real.cos (Real.pi / 4) = 1 / 2 := by
  rw [Real.cos_pi_div_four]
  have h : Real.sqrt 2 * Real.sqrt 2 = 2 := Real.mul_self_sqrt (by norm_num)
  nlinarith [h]

theorem sin_pi4_sq : Real.sin (Real.pi / 4) * Real.sin (Real.pi / 4) = 1 / 2 := by
  rw [Real.sin_pi_div_four]
  have h : Real.sqrt 2 * Real.sqrt 2 = 2 := Real.mul_self_sqrt (by norm_num)
  nlinarith [h]

theorem sin_cos_pi4 : Real.sin (Real.pi / 4) * Real.cos (Real.pi / 4) = 1 / 2 := by
  rw [Real.sin_pi_div_four, Real.cos_pi_div_four]
  have h : Real.sqrt 2 * Real.sqrt 2 = 2 := Real.mul_self_sqrt (by norm_num)
  nlinarith [h]

/-- The quaternion of the loop body over the reals. -/
theorem asteroidQuat_real (dt : ℝ) :
    asteroidQuat ⟨Real.cos, Real.sin, Real.pi⟩ dt =
      ⟨Real.cos (Real.pi / 4) * Real.cos (roll dt / 2),
       Real.cos (Real.pi / 4) * Real.sin (roll dt / 2),
       -Real.sin (Real.pi / 4) * Real.cos (roll dt / 2),
       Real.sin (Real.pi / 4) * Real.sin (roll dt / 2)⟩ := by
  rw [asteroidQuat_components]
  simp only [neg_pi_half_half, Real.cos_neg, Real.sin_neg, roll]
  apply quat_ext <;> simp

/-- The product `R_y(-π/2) * R_x(r)` over the reals. -/
theorem Ry_mul_Rx_real (r : ℝ) :
    (R_y ⟨Real.cos, Real.sin, Real.pi⟩ (-Real.pi / 2)).mul (R_x ⟨Real.cos, Real.sin, Real.pi⟩ r) =
      ⟨Real.cos (Real.pi / 4) * Real.cos (r / 2),
       Real.cos (Real.pi / 4) * Real.sin (r / 2),
       -Real.sin (Real.pi / 4) * Real.cos (r / 2),
       Real.sin (Real.pi / 4) * Real.sin (r / 2)⟩ := by
  simp only [R_y, R_x, Quaterniond.mul, neg_pi_half_half, Real.cos_neg, Real.sin_neg]
  apply quat_ext <;> simp

theorem squaredNorm_mul {α : Type} [CommRing α] (a b : Quaterniond α) :
    (a.mul b).squaredNorm = a.squaredNorm * b.squaredNorm := by
  simp only [Quaterniond.mul, Quaterniond.squaredNorm]; ring

/-- The three records one call of `camCallback` appends to the transform log,
for any scalar field and any `cos`, `sin`, `M_PI`. -/
theorem camCallback_tf_log {α : Type} [Field α] (m : CMath α) (msg : Pose α) (b : α)
    (w : World α) :
    (camCallback m msg b w).tf_log = w.tf_log ++
      [⟨⟨⟨msg.position.x, msg.position.y, msg.position.z⟩,
          ⟨msg.orientation.x, msg.orientation.y, msg.orientation.z, msg.orientation.w⟩⟩,
        w.clock w.reads, "world", "camera"⟩,
       ⟨⟨⟨0, 0, 0⟩, ⟨(q_cam m).x, (q_cam m).y, (q_cam m).z, (q_cam m).w⟩⟩,
        w.clock (w.reads + 1), "camera", "camera1"⟩,
       ⟨⟨⟨0, b, 0⟩, ⟨(q_cam m).x, (q_cam m).y, (q_cam m).z, (q_cam m).w⟩⟩,
        w.clock (w.reads + 1 + 1), "camera", "camera2"⟩] := by
  simp [camCallback, tf_pub, tf_pub_Eigen, Time.now, sendTransform]

theorem q_cam_real :
    q_cam (⟨Real.cos, Real.sin, Real.pi⟩ : CMath ℝ) = ⟨1 / 2, -(1 / 2), 1 / 2, -(1 / 2)⟩ := by
  apply quat_ext <;> simp only [q_cam, q_cam1, q_cam2, Quaterniond.mul]
  · linear_combination cos_pi4_sq
  · linear_combination -sin_pi4_sq
  · linear_combination sin_cos_pi4
  · linear_combination -sin_cos_pi4

theorem roll_two_pi : roll (2 * Real.pi) = Real.pi / 2 := by
  simp only [roll, omega_real]; ring

theorem roll_four_pi : roll (4 * Real.pi) = Real.pi := by
  simp only [roll, omega_real]; ring

theorem asteroidPose_orientation {α : Type} [Field α] (m : CMath α) (dt : α) :
    (publishTick m dt).1.orientation = (asteroidQuat m dt).toMsg := rfl

theorem asteroidPose_position {α : Type} [Field α] (m : CMath α) (dt : α) :
    (publishTick m dt).1.position = ⟨0, 0, 0⟩ := rfl

/-- The loop body computes the product the specification names, for every
real `dt`. -/
theorem asteroidQuat_eq_Ry_mul_Rx (dt : ℝ) :
    asteroidQuat ⟨Real.cos, Real.sin, Real.pi⟩ dt =
      (R_y ⟨Real.cos, Real.sin, Real.pi⟩ (-Real.pi / 2)).mul
        (R_x ⟨Real.cos, Real.sin, Real.pi⟩ (roll dt)) := by
  rw [asteroidQuat_real, Ry_mul_Rx_real]

/-- What `tf_pub` returns and does: one clock reading, returned, and one
record appended, carrying the components it was given. -/
theorem tf_pub_eq {α : Type} (point : Point α) (quat : Quaternion α) (parent child : String)
    (w : World α) :
    tf_pub point quat parent child w =
      (w.clock w.reads,
       { clock := w.clock, reads := w.reads + 1, vis_log := w.vis_log,
         tf_log := w.tf_log ++
          [⟨⟨⟨point.x, point.y, point.z⟩, ⟨quat.x, quat.y, quat.z, quat.w⟩⟩,
            w.clock w.reads, parent, child⟩] }) := rfl

theorem poseCallback_cons {α : Type} (msg : Pose α) (m0 : Marker α) (rest : List (Marker α))
    (w : World α) :
    poseCallback msg ⟨m0 :: rest⟩ w =
      some (⟨m0.setStamp (w.clock w.reads) :: rest⟩,
        { clock := w.clock, reads := w.reads + 1,
          tf_log := w.tf_log ++
            [⟨⟨⟨msg.position.x, msg.position.y, msg.position.z⟩,
                ⟨msg.orientation.x, msg.orientation.y, msg.orientation.z, msg.orientation.w⟩⟩,
              w.clock w.reads, "world", "asteroid"⟩],
          vis_log := w.vis_log ++ [⟨m0.setStamp (w.clock w.reads) :: rest⟩] }) := rfl

theorem sameExceptStamp_refl {α : Type} (a : Marker α) : a.sameExceptStamp a := by
  simp [Marker.sameExceptStamp]

theorem sameExceptStamp_setStamp {α : Type} (a b : Marker α) (t : Time)
    (h : a.sameExceptStamp b) : (a.setStamp t).sameExceptStamp b := by
  simpa [Marker.sameExceptStamp, Marker.setStamp] using h

/-- Whatever messages are delivered, the loop of `main` keeps running on a
non-empty collection, and keeps every marker but for the stamp of the first. -/
theorem spin_keeps_markers {α : Type} [Field α] (m : CMath α) (events : List (Event α)) :
    ∀ (n : Node α) (m0 : Marker α) (rest : List (Marker α)),
      n.asteroid_marker.markers = m0 :: rest →
      ∃ n1 m1, spin m events n = some n1 ∧ n1.asteroid_marker.markers = m1 :: rest ∧
        m1.sameExceptStamp m0 := by
  induction events with
  | nil =>
    intro n m0 rest h
    exact ⟨n, m0, rfl, h, sameExceptStamp_refl m0⟩
  | cons e es ih =>
    intro n m0 rest h
    cases e with
    | objectPose msg =>
      obtain ⟨am, b, w⟩ := n
      obtain ⟨ms⟩ := am
      simp only at h
      subst h
      obtain ⟨n1, m1, h1, h2, h3⟩ :=
        ih ⟨⟨m0.setStamp (w.clock w.reads) :: rest⟩, b,
            (publish ⟨m0.setStamp (w.clock w.reads) :: rest⟩
              (tf_pub msg.position msg.orientation "world" "asteroid" w).2)⟩
          (m0.setStamp (w.clock w.reads)) rest rfl
      refine ⟨n1, m1, ?_, h2, ?_⟩
      · simpa [spin, dispatch, poseCallback_cons] using h1
      · obtain ⟨a1, a2, a3, a4, a5, a6, a7, a8, a9, a10, a11, a12, a13, a14, a15, a16⟩ := h3
        exact ⟨a1, a2, a3, a4, a5, a6, a7, a8, a9, a10, a11, a12, a13, a14, a15, a16⟩
    | cameraPose msg =>
      obtain ⟨n1, m1, h1, h2, h3⟩ :=
        ih { n with world := camCallback m msg n.cam_baseline n.world } m0 rest h
      exact ⟨n1, m1, by simpa [spin, dispatch] using h1, h2, h3⟩

theorem MeshMarker_eq {α : Type} [Zero α] [Mul α] (point : Vector3d α) (quat : Quaterniond α)
    (frame_id ns file_3d : String) (size : α) (seqNumber : Int)
    (markerArray : MarkerArray α) (w : World α) :
    MeshMarker point quat frame_id ns file_3d size seqNumber markerArray w =
      (⟨markerArray.markers ++
        [{ header := ⟨0, w.clock w.reads, frame_id⟩
           ns := ns
           id := seqNumber
           type := 10
           action := 0
           pose := ⟨⟨size * point.x, size * point.y, size * point.z⟩,
                    ⟨quat.x, quat.y, quat.z, quat.w⟩⟩
           scale := ⟨size, size, size⟩
           color := ⟨0, 0, 0, 0⟩
           lifetime := ⟨0, 0⟩
           frame_locked := false
           points := []
           colors := []
           text := ""
           mesh_resource := "package://view_asteroid/meshes/" ++ file_3d
           mesh_use_embedded_materials := true }]⟩,
       { w with reads := w.reads + 1 }) := rfl

/-- The operand order matters: at `dt = 2π` the product taken the other way
round, `R_x(omega*dt) * R_y(-π/2)`, is not the quaternion of the loop body. -/
theorem reversed_order_differs :
    (R_x ⟨Real.cos, Real.sin, Real.pi⟩ (roll (2 * Real.pi))).mul
        (R_y ⟨Real.cos, Real.sin, Real.pi⟩ (-Real.pi / 2)) ≠
      asteroidQuat ⟨Real.cos, Real.sin, Real.pi⟩ (2 * Real.pi) := by
  intro h
  rw [asteroidQuat_real, roll_two_pi] at h
  have hz := congrArg Quaterniond.z h
  have e : Real.pi / 2 / 2 = Real.pi / 4 := by ring
  simp only [R_x, R_y, Quaterniond.mul, neg_pi_half_half, Real.sin_neg, e] at hz
  have h2 := sin_pi4_sq
  linarith

/-! ## The motion model (publish_asteroid_pose.cpp) -/

/-- C1: for every elapsed time `dt ≥ 0`, with real angles and `omega = 0.25`,
the asteroid pose of the periodic publisher has position `(0, 0, 0)` and its
orientation is the product `R_y(-π/2) * R_x(omega*dt)`, pitch on the left and
roll on the right; component by component it is
`(w, x, y, z) = (cos(π/4)cos(r/2), cos(π/4)sin(r/2), -sin(π/4)cos(r/2),
sin(π/4)sin(r/2))` with `r = omega*dt`. -/
theorem asteroid_pose_pitch_times_roll (dt : ℝ) (hdt : 0 ≤ dt) :
    (publishTick ⟨Real.cos, Real.sin, Real.pi⟩ dt).1.position = ⟨0, 0, 0⟩ ∧
    (publishTick ⟨Real.cos, Real.sin, Real.pi⟩ dt).1.orientation =
      ((R_y ⟨Real.cos, Real.sin, Real.pi⟩ (-Real.pi / 2)).mul
        (R_x ⟨Real.cos, Real.sin, Real.pi⟩ (0.25 * dt))).toMsg ∧
    (publishTick ⟨Real.cos, Real.sin, Real.pi⟩ dt).1.orientation =
      { w := Real.cos (Real.pi / 4) * Real.cos (0.25 * dt / 2)
        x := Real.cos (Real.pi / 4) * Real.sin (0.25 * dt / 2)
        y := -Real.sin (Real.pi / 4) * Real.cos (0.25 * dt / 2)
        z := Real.sin (Real.pi / 4) * Real.sin (0.25 * dt / 2) } := by
  have _h := hdt
  have hr : roll dt = 0.25 * dt := by simp only [roll, omega]
  refine ⟨rfl, ?_, ?_⟩
  · rw [asteroidPose_orientation, asteroidQuat_eq_Ry_mul_Rx, hr]
  · rw [asteroidPose_orientation, asteroidQuat_real, hr]; rfl

/-- Witness of C1 at `dt = 1`. -/
theorem asteroid_pose_pitch_times_roll_witness :
    (0 : ℝ) ≤ 1 ∧
    (publishTick ⟨Real.cos, Real.sin, Real.pi⟩ (1 : ℝ)).1.orientation =
      ((R_y ⟨Real.cos, Real.sin, Real.pi⟩ (-Real.pi / 2)).mul
        (R_x ⟨Real.cos, Real.sin, Real.pi⟩ (0.25 * 1))).toMsg :=
  ⟨zero_le_one, (asteroid_pose_pitch_times_roll 1 zero_le_one).2.1⟩

/-- C8: every orientation the program derives has unit norm over the reals:
the asteroid orientation `R_y(-π/2) * R_x(r)` for every real `r` and each of
its two factors, the quaternion `q = q1*q2` of the loop body for every `dt`,
the lens rotation `q_cam = q_cam1*q_cam2` and each of its two factors. -/
theorem derived_orientations_unit_norm :
    (∀ r : ℝ,
      ((R_y ⟨Real.cos, Real.sin, Real.pi⟩ (-Real.pi / 2)).mul
        (R_x ⟨Real.cos, Real.sin, Real.pi⟩ r)).squaredNorm = 1 ∧
      (R_y ⟨Real.cos, Real.sin, Real.pi⟩ (-Real.pi / 2)).squaredNorm = 1 ∧
      (R_x ⟨Real.cos, Real.sin, Real.pi⟩ r).squaredNorm = 1) ∧
    (∀ dt : ℝ,
      (asteroidQuat ⟨Real.cos, Real.sin, Real.pi⟩ dt).squaredNorm = 1 ∧
      ((AngleAxisd.mk (pitch ⟨Real.cos, Real.sin, Real.pi⟩) Vector3d.UnitY).toQuaterniond
        ⟨Real.cos, Real.sin, Real.pi⟩).squaredNorm = 1 ∧
      ((AngleAxisd.mk (roll dt) Vector3d.UnitX).toQuaterniond
        ⟨Real.cos, Real.sin, Real.pi⟩).squaredNorm = 1) ∧
    (q_cam (⟨Real.cos, Real.sin, Real.pi⟩ : CMath ℝ)).squaredNorm = 1 ∧
    (q_cam1 (⟨Real.cos, Real.sin, Real.pi⟩ : CMath ℝ)).squaredNorm = 1 ∧
    (q_cam2 (⟨Real.cos, Real.sin, Real.pi⟩ : CMath ℝ)).squaredNorm = 1 := by
  have hRy : ∀ t : ℝ, (R_y ⟨Real.cos, Real.sin, Real.pi⟩ t).squaredNorm = 1 := by
    intro t
    simp only [R_y, Quaterniond.squaredNorm]
    linear_combination Real.sin_sq_add_cos_sq (t / 2)
  have hRx : ∀ t : ℝ, (R_x ⟨Real.cos, Real.sin, Real.pi⟩ t).squaredNorm = 1 := by
    intro t
    simp only [R_x, Quaterniond.squaredNorm]
    linear_combination Real.sin_sq_add_cos_sq (t / 2)
  have hc1 : (q_cam1 (⟨Real.cos, Real.sin, Real.pi⟩ : CMath ℝ)).squaredNorm = 1 := by
    simp only [q_cam1, Quaterniond.squaredNorm]
    linear_combination Real.sin_sq_add_cos_sq (Real.pi / 4)
  have hc2 : (q_cam2 (⟨Real.cos, Real.sin, Real.pi⟩ : CMath ℝ)).squaredNorm = 1 := by
    simp only [q_cam2, Quaterniond.squaredNorm]
    linear_combination Real.sin_sq_add_cos_sq (Real.pi / 4)
  refine ⟨fun r => ⟨?_, hRy _, hRx r⟩, fun dt => ⟨?_, ?_, ?_⟩, ?_, hc1, hc2⟩
  · rw [squaredNorm_mul, hRy, hRx, one_mul]
  · rw [asteroidQuat_eq_Ry_mul_Rx, squaredNorm_mul, hRy, hRx, one_mul]
  · simp only [AngleAxisd.toQuaterniond, Vector3d.UnitY, Quaterniond.squaredNorm]
    linear_combination Real.sin_sq_add_cos_sq (pitch ⟨Real.cos, Real.sin, Real.pi⟩ / 2)
  · simp only [AngleAxisd.toQuaterniond, Vector3d.UnitX, Quaterniond.squaredNorm]
    linear_combination Real.sin_sq_add_cos_sq (roll dt / 2)
  · rw [q_cam, squaredNorm_mul, hc1, hc2, one_mul]

/-- C9, as stated, fails: with `omega = 0.25`, at `dt = 2π` the roll angle is
not `π`, and the orientation published is not `R_y(-π/2) * R_x(π)`. -/
theorem roll_at_two_pi_is_not_pi :
    roll (2 * Real.pi) ≠ Real.pi ∧
    (publishTick ⟨Real.cos, Real.sin, Real.pi⟩ (2 * Real.pi)).1.orientation ≠
      ((R_y ⟨Real.cos, Real.sin, Real.pi⟩ (-Real.pi / 2)).mul
        (R_x ⟨Real.cos, Real.sin, Real.pi⟩ Real.pi)).toMsg := by
  constructor
  · rw [roll_two_pi]
    intro h
    linarith [Real.pi_pos]
  · intro h
    rw [asteroidPose_orientation, asteroidQuat_real, Ry_mul_Rx_real, roll_two_pi] at h
    have hw := congrArg Quaternion.w h
    simp only [Quaterniond.toMsg] at hw
    have e : Real.pi / 2 / 2 = Real.pi / 4 := by ring
    rw [e, cos_pi4_sq, Real.cos_pi_div_two, mul_zero] at hw
    norm_num at hw

/-- C9, amended: with `omega = 0.25`, at `dt = 2π` the roll angle is `π/2`,
and the orientation published is `R_y(-π/2) * R_x(π/2)`, which is
`(w, x, y, z) = (1/2, 1/2, -1/2, 1/2)`; the roll angle `π` and the orientation
`R_y(-π/2) * R_x(π)` are reached at `dt = 4π`. -/
theorem roll_at_two_pi_is_half_pi :
    roll (2 * Real.pi) = Real.pi / 2 ∧
    (publishTick ⟨Real.cos, Real.sin, Real.pi⟩ (2 * Real.pi)).1.orientation =
      ((R_y ⟨Real.cos, Real.sin, Real.pi⟩ (-Real.pi / 2)).mul
        (R_x ⟨Real.cos, Real.sin, Real.pi⟩ (Real.pi / 2))).toMsg ∧
    (publishTick ⟨Real.cos, Real.sin, Real.pi⟩ (2 * Real.pi)).1.orientation =
      { w := 1 / 2, x := 1 / 2, y := -(1 / 2), z := 1 / 2 } ∧
    roll (4 * Real.pi) = Real.pi ∧
    (publishTick ⟨Real.cos, Real.sin, Real.pi⟩ (4 * Real.pi)).1.orientation =
      ((R_y ⟨Real.cos, Real.sin, Real.pi⟩ (-Real.pi / 2)).mul
        (R_x ⟨Real.cos, Real.sin, Real.pi⟩ Real.pi)).toMsg := by
  have e : Real.pi / 2 / 2 = Real.pi / 4 := by ring
  refine ⟨roll_two_pi, ?_, ?_, roll_four_pi, ?_⟩
  · rw [asteroidPose_orientation, asteroidQuat_eq_Ry_mul_Rx, roll_two_pi]
  · rw [asteroidPose_orientation, asteroidQuat_real, roll_two_pi, e]
    simp only [Quaterniond.toMsg, neg_mul, cos_pi4_sq, sin_pi4_sq, sin_cos_pi4]
    rw [mul_comm (Real.cos (Real.pi / 4)) (Real.sin (Real.pi / 4)), sin_cos_pi4]
  · rw [asteroidPose_orientation, asteroidQuat_eq_Ry_mul_Rx, roll_four_pi]

/-! ## The reactive node (view_asteroid.cpp) -/

/-- C2: for every camera pose `P`, baseline `b` and world, `camCallback` emits
after the camera record two lens records that carry the same rotation, the
components of `q_cam1*q_cam2` (an expression in which `P` does not occur); the
first lens is at `(0, 0, 0)`, the second at `(0, b, 0)`, so their difference is
`(0, b, 0)`; both have parent frame `camera`. -/
theorem lens_transforms_fixed_rotation_and_baseline {α : Type} [Field α] (m : CMath α)
    (P : Pose α) (b : α) (w : World α) :
    ∃ r0 r1 r2 : StampedTransform α,
      (camCallback m P b w).tf_log = w.tf_log ++ [r0, r1, r2] ∧
      r1.transform.rotation =
        ⟨((q_cam1 m).mul (q_cam2 m)).x, ((q_cam1 m).mul (q_cam2 m)).y,
         ((q_cam1 m).mul (q_cam2 m)).z, ((q_cam1 m).mul (q_cam2 m)).w⟩ ∧
      r2.transform.rotation = r1.transform.rotation ∧
      r1.transform.origin = ⟨0, 0, 0⟩ ∧
      r2.transform.origin = ⟨0, b, 0⟩ ∧
      r2.transform.origin.x - r1.transform.origin.x = 0 ∧
      r2.transform.origin.y - r1.transform.origin.y = b ∧
      r2.transform.origin.z - r1.transform.origin.z = 0 ∧
      r1.frame_id_ = "camera" ∧ r2.frame_id_ = "camera" := by
  refine ⟨_, _, _, camCallback_tf_log m P b w, rfl, rfl, rfl, rfl, ?_, ?_, ?_, rfl, rfl⟩ <;>
    simp

/-- C3: when `poseCallback` handles a pose on a non-empty marker collection,
it sends one `world` to `asteroid` record and publishes one collection, and the
stamp of `markers[0]` in the published collection is the stamp of that record,
which is the value `tf_pub` returns: the single clock reading of the call. -/
theorem marker_stamp_equals_transform_stamp {α : Type} (msg : Pose α)
    (asteroid_marker : MarkerArray α) (w : World α) (h : asteroid_marker.markers ≠ []) :
    ∃ (am1 : MarkerArray α) (w1 : World α) (tr : StampedTransform α) (m1 : Marker α),
      poseCallback msg asteroid_marker w = some (am1, w1) ∧
      w1.tf_log = w.tf_log ++ [tr] ∧
      tr.frame_id_ = "world" ∧ tr.child_frame_id_ = "asteroid" ∧
      w1.vis_log = w.vis_log ++ [am1] ∧
      am1.markers.head? = some m1 ∧
      m1.header.stamp = tr.stamp_ ∧
      tr.stamp_ = (tf_pub msg.position msg.orientation "world" "asteroid" w).1 ∧
      tr.stamp_ = w.clock w.reads ∧
      w1.reads = w.reads + 1 := by
  obtain ⟨ms⟩ := asteroid_marker
  cases ms with
  | nil => exact absurd rfl h
  | cons m0 rest =>
    exact ⟨_, _, _, _, poseCallback_cons msg m0 rest w, rfl, rfl, rfl, rfl, rfl, rfl, rfl,
      rfl, rfl⟩

/-- Witness of C3: the scenario's pose on the collection `main` builds. -/
theorem marker_stamp_equals_transform_stamp_witness :
    (scenarioMarkers : MarkerArray ℝ).markers ≠ [] ∧
    ∃ (am1 : MarkerArray ℝ) (w1 : World ℝ) (tr : StampedTransform ℝ) (m1 : Marker ℝ),
      poseCallback scenarioPose scenarioMarkers (World.start ℝ) = some (am1, w1) ∧
      w1.tf_log = (World.start ℝ).tf_log ++ [tr] ∧
      tr.frame_id_ = "world" ∧ tr.child_frame_id_ = "asteroid" ∧
      w1.vis_log = (World.start ℝ).vis_log ++ [am1] ∧
      am1.markers.head? = some m1 ∧
      m1.header.stamp = tr.stamp_ ∧
      tr.stamp_ =
        (tf_pub (scenarioPose : Pose ℝ).position (scenarioPose : Pose ℝ).orientation
          "world" "asteroid" (World.start ℝ)).1 ∧
      tr.stamp_ = (World.start ℝ).clock (World.start ℝ).reads ∧
      w1.reads = (World.start ℝ).reads + 1 :=
  ⟨by simp [scenarioMarkers, MeshMarker_eq],
   marker_stamp_equals_transform_stamp scenarioPose scenarioMarkers (World.start ℝ)
    (by simp [scenarioMarkers, MeshMarker_eq])⟩

/-- C4: on a non-empty marker collection `poseCallback` changes nothing but
`markers[0].header.stamp`: the length is the same, the markers after the first
are the same, and the first agrees with the old one on every field other than
the stamp.  Hence after any sequence of delivered messages the loop of `main`
still holds the same markers but for that stamp; in particular the marker that
`main` builds with `MeshMarker` keeps the fields set at construction. -/
theorem poseCallback_changes_only_stamp {α : Type} [Field α] (m : CMath α) (msg : Pose α)
    (asteroid_marker : MarkerArray α) (w : World α) (events : List (Event α)) (b : α)
    (file_3d : String) (o0 o1 o2 scale : α) (tl : List α)
    (h : asteroid_marker.markers ≠ []) :
    (∃ (am1 : MarkerArray α) (w1 : World α) (m0 m1 : Marker α) (rest : List (Marker α)),
      poseCallback msg asteroid_marker w = some (am1, w1) ∧
      asteroid_marker.markers = m0 :: rest ∧
      am1.markers = m1 :: rest ∧
      am1.markers.length = asteroid_marker.markers.length ∧
      m1.sameExceptStamp m0 ∧
      m1 = m0.setStamp (tf_pub msg.position msg.orientation "world" "asteroid" w).1) ∧
    (∃ (n1 : Node α) (m0 m1 : Marker α) (rest : List (Marker α)),
      spin m events ⟨asteroid_marker, b, w⟩ = some n1 ∧
      asteroid_marker.markers = m0 :: rest ∧
      n1.asteroid_marker.markers = m1 :: rest ∧
      m1.sameExceptStamp m0) ∧
    (∃ (n0 n1 : Node α) (m0 m1 : Marker α),
      mainSetup ⟨b, file_3d, o0 :: o1 :: o2 :: tl, scale⟩ w = some n0 ∧
      spin m events n0 = some n1 ∧
      n0.asteroid_marker.markers = [m0] ∧
      n1.asteroid_marker.markers = [m1] ∧
      m1.sameExceptStamp m0) := by
  obtain ⟨ms⟩ := asteroid_marker
  cases ms with
  | nil => exact absurd rfl h
  | cons m0 rest =>
    refine ⟨⟨_, _, m0, _, rest, poseCallback_cons msg m0 rest w, rfl, rfl, rfl, ?_, rfl⟩, ?_, ?_⟩
    · exact sameExceptStamp_setStamp m0 m0 _ (sameExceptStamp_refl m0)
    · obtain ⟨n1, m1, h1, h2, h3⟩ := spin_keeps_markers m events ⟨⟨m0 :: rest⟩, b, w⟩ m0 rest rfl
      exact ⟨n1, m0, m1, rest, h1, rfl, h2, h3⟩
    · obtain ⟨n1, m1, h1, h2, h3⟩ := spin_keeps_markers m events
        ⟨(MeshMarker ⟨o0, o1, o2⟩ (Quaterniond.mk 1 0 0 0) "asteroid" "asteroid" file_3d scale 1
            { markers := [] } w).1, b,
         (MeshMarker ⟨o0, o1, o2⟩ (Quaterniond.mk 1 0 0 0) "asteroid" "asteroid" file_3d scale 1
            { markers := [] } w).2⟩ _ [] rfl
      exact ⟨_, n1, _, m1, rfl, h1, rfl, h2, h3⟩

/-- Witness of C4: the collection `main` builds in the scenario, with the
scenario's pose delivered twice and a camera pose in between. -/
theorem poseCallback_changes_only_stamp_witness :
    (scenarioMarkers : MarkerArray ℝ).markers ≠ [] ∧
    ∃ (n1 : Node ℝ) (m0 m1 : Marker ℝ) (rest : List (Marker ℝ)),
      spin ⟨Real.cos, Real.sin, Real.pi⟩
        [Event.objectPose scenarioPose, Event.cameraPose scenarioPose,
         Event.objectPose scenarioPose]
        ⟨scenarioMarkers, 0.2, World.start ℝ⟩ = some n1 ∧
      (scenarioMarkers : MarkerArray ℝ).markers = m0 :: rest ∧
      n1.asteroid_marker.markers = m1 :: rest ∧
      m1.sameExceptStamp m0 :=
  ⟨by simp [scenarioMarkers, MeshMarker_eq],
   (poseCallback_changes_only_stamp ⟨Real.cos, Real.sin, Real.pi⟩ scenarioPose scenarioMarkers
      (World.start ℝ)
      [Event.objectPose scenarioPose, Event.cameraPose scenarioPose,
       Event.objectPose scenarioPose]
      0.2 "asteroid.dae" 0 0 0 1 []
      (by simp [scenarioMarkers, MeshMarker_eq])).2.1⟩

/-- C5: `MeshMarker` appends exactly one marker: the earlier entries are kept
and the length grows by one; the new marker has pose position
`(s*p.x, s*p.y, s*p.z)`, scale `s` on the three axes, the orientation
components of `q`, the frame id and namespace given, id `n`, colour
`r = g = b = a = 0` and embedded materials enabled (and type `MESH_RESOURCE`,
action `ADD`, the mesh resource under `package://view_asteroid/meshes/`, the
clock reading as stamp).  As called from `main`, the collection has this one
marker, with frame `asteroid`, namespace `asteroid`, id 1, identity
orientation and position `scale * offset`. -/
theorem MeshMarker_appends_one_marker {α : Type} [Field α] (p : Vector3d α)
    (q : Quaterniond α) (frame_id ns file_3d : String) (s : α) (n : Int)
    (markerArray : MarkerArray α) (w : World α) (b o0 o1 o2 : α) (tl : List α) :
    (∃ marker : Marker α,
      (MeshMarker p q frame_id ns file_3d s n markerArray w).1.markers =
        markerArray.markers ++ [marker] ∧
      (MeshMarker p q frame_id ns file_3d s n markerArray w).1.markers.length =
        markerArray.markers.length + 1 ∧
      marker.pose.position = ⟨s * p.x, s * p.y, s * p.z⟩ ∧
      marker.scale = ⟨s, s, s⟩ ∧
      marker.pose.orientation.w = q.w ∧ marker.pose.orientation.x = q.x ∧
      marker.pose.orientation.y = q.y ∧ marker.pose.orientation.z = q.z ∧
      marker.header.frame_id = frame_id ∧
      marker.ns = ns ∧
      marker.id = n ∧
      marker.color = ⟨0, 0, 0, 0⟩ ∧
      marker.mesh_use_embedded_materials = true ∧
      marker.type = Marker.MESH_RESOURCE ∧
      marker.action = Marker.ADD ∧
      marker.mesh_resource = "package://view_asteroid/meshes/" ++ file_3d ∧
      marker.header.stamp = w.clock w.reads) ∧
    (∃ (node : Node α) (marker : Marker α),
      mainSetup ⟨b, file_3d, o0 :: o1 :: o2 :: tl, s⟩ w = some node ∧
      node.asteroid_marker.markers = [marker] ∧
      marker.header.frame_id = "asteroid" ∧
      marker.ns = "asteroid" ∧
      marker.id = 1 ∧
      marker.pose.orientation = ⟨0, 0, 0, 1⟩ ∧
      marker.pose.position = ⟨s * o0, s * o1, s * o2⟩ ∧
      marker.scale = ⟨s, s, s⟩ ∧
      marker.color = ⟨0, 0, 0, 0⟩ ∧
      marker.mesh_use_embedded_materials = true) := by
  constructor
  · rw [MeshMarker_eq]
    exact ⟨_, rfl, by simp, rfl, rfl, rfl, rfl, rfl, rfl, rfl, rfl, rfl, rfl, rfl, rfl, rfl,
      rfl, rfl⟩
  · exact ⟨_, _, rfl, rfl, rfl, rfl, rfl, rfl, rfl, rfl, rfl, rfl⟩

/-- C6: for every pose message, of unit norm or not, the record `tf_pub` emits
has translation `(p.x, p.y, p.z)` and rotation components
`(o.x, o.y, o.z, o.w)`, as given; `tf_pub` always returns, and appends exactly
this record.  So does the `world` to `camera` record of `camCallback` and the
`world` to `asteroid` record of `poseCallback`; the pose of norm 2 is passed on
with its components `(0, 0, 0, 2)`. -/
theorem tf_pub_passes_pose_verbatim {α : Type} [Field α] (m : CMath α) (msg : Pose α)
    (parent child : String) (b : α) (m0 : Marker α) (rest : List (Marker α)) (w : World α) :
    (tf_pub msg.position msg.orientation parent child w).2.tf_log = w.tf_log ++
      [⟨⟨⟨msg.position.x, msg.position.y, msg.position.z⟩,
          ⟨msg.orientation.x, msg.orientation.y, msg.orientation.z, msg.orientation.w⟩⟩,
        (tf_pub msg.position msg.orientation parent child w).1, parent, child⟩] ∧
    (∃ r1 r2 : StampedTransform α,
      (camCallback m msg b w).tf_log = w.tf_log ++
        [⟨⟨⟨msg.position.x, msg.position.y, msg.position.z⟩,
            ⟨msg.orientation.x, msg.orientation.y, msg.orientation.z, msg.orientation.w⟩⟩,
          w.clock w.reads, "world", "camera"⟩, r1, r2]) ∧
    (∃ (am1 : MarkerArray α) (w1 : World α),
      poseCallback msg ⟨m0 :: rest⟩ w = some (am1, w1) ∧
      w1.tf_log = w.tf_log ++
        [⟨⟨⟨msg.position.x, msg.position.y, msg.position.z⟩,
            ⟨msg.orientation.x, msg.orientation.y, msg.orientation.z, msg.orientation.w⟩⟩,
          w.clock w.reads, "world", "asteroid"⟩]) ∧
    (tf_pub (nonUnitPose : Pose α).position (nonUnitPose : Pose α).orientation parent child
        w).2.tf_log =
      w.tf_log ++ [⟨⟨⟨1, 2, 3⟩, ⟨0, 0, 0, 2⟩⟩, w.clock w.reads, parent, child⟩] := by
  refine ⟨rfl, ⟨_, _, camCallback_tf_log m msg b w⟩, ?_, rfl⟩
  exact ⟨_, _, poseCallback_cons msg m0 rest w, rfl⟩

/-- C7, as stated, fails: in the specification's scenario (camera at
`(1, 2, 3)`, identity orientation, baseline 0.2) the frame-name pairs of the
records `camCallback` emits are not (`world`, `camera`), (`camera`,
`camera-left`), (`camera`, `camera-right`). -/
theorem camCallback_children_are_not_left_right :
    (camCallback ⟨Real.cos, Real.sin, Real.pi⟩ scenarioPose (0.2 : ℝ)
        (World.start ℝ)).tf_log.map StampedTransform.framePair ≠
      [("world", "camera"), ("camera", "camera-left"), ("camera", "camera-right")] := by
  rw [camCallback_tf_log]
  simp [World.start, StampedTransform.framePair]

/-- C7, amended: for every camera pose event `camCallback` emits exactly three
records whose (parent, child) frame names are, in order, (`world`, `camera`),
(`camera`, `camera1`), (`camera`, `camera2`): no pair occurs twice, and every
parent is the root `world` or the child of a record emitted earlier in the
call. -/
theorem camCallback_emits_three_frames {α : Type} [Field α] (m : CMath α) (msg : Pose α)
    (b : α) (w : World α) :
    ∃ recs : List (StampedTransform α),
      (camCallback m msg b w).tf_log = w.tf_log ++ recs ∧
      recs.length = 3 ∧
      recs.map StampedTransform.framePair =
        [("world", "camera"), ("camera", "camera1"), ("camera", "camera2")] ∧
      (recs.map StampedTransform.framePair).Nodup ∧
      noOrphan ["world"] (recs.map StampedTransform.framePair) = true := by
  refine ⟨_, camCallback_tf_log m msg b w, rfl, rfl, ?_, ?_⟩
  · simp [StampedTransform.framePair]
  · simp [StampedTransform.framePair, noOrphan]

/-- C10: over the reals `q_cam1` is the quaternion of the rotation by `+π/2`
about Y, `AngleAxis(π/2, UnitY)`, and `q_cam2` that of the rotation by `-π/2`
about Z, `AngleAxis(-π/2, UnitZ)`; their Hamilton product `q_cam1*q_cam2` is
`(w, x, y, z) = (1/2, -1/2, 1/2, -1/2)`, and this is the rotation of both lens
records for every pose, baseline and world. -/
theorem lens_rotation_is_constant (msg : Pose ℝ) (b : ℝ) (w : World ℝ) :
    q_cam1 ⟨Real.cos, Real.sin, Real.pi⟩ =
      (AngleAxisd.mk (Real.pi / 2) Vector3d.UnitY).toQuaterniond ⟨Real.cos, Real.sin, Real.pi⟩ ∧
    q_cam1 ⟨Real.cos, Real.sin, Real.pi⟩ = R_y ⟨Real.cos, Real.sin, Real.pi⟩ (Real.pi / 2) ∧
    q_cam2 ⟨Real.cos, Real.sin, Real.pi⟩ =
      (AngleAxisd.mk (-Real.pi / 2) Vector3d.UnitZ).toQuaterniond
        ⟨Real.cos, Real.sin, Real.pi⟩ ∧
    q_cam2 ⟨Real.cos, Real.sin, Real.pi⟩ = R_z ⟨Real.cos, Real.sin, Real.pi⟩ (-Real.pi / 2) ∧
    (q_cam1 ⟨Real.cos, Real.sin, Real.pi⟩).mul (q_cam2 ⟨Real.cos, Real.sin, Real.pi⟩) =
      ({ w := 1 / 2, x := -(1 / 2), y := 1 / 2, z := -(1 / 2) } : Quaterniond ℝ) ∧
    (∃ r0 r1 r2 : StampedTransform ℝ,
      (camCallback ⟨Real.cos, Real.sin, Real.pi⟩ msg b w).tf_log = w.tf_log ++ [r0, r1, r2] ∧
      r1.transform.rotation = { w := 1 / 2, x := -(1 / 2), y := 1 / 2, z := -(1 / 2) } ∧
      r2.transform.rotation = { w := 1 / 2, x := -(1 / 2), y := 1 / 2, z := -(1 / 2) }) := by
  have e : Real.pi / 2 / 2 = Real.pi / 4 := by ring
  have hq := q_cam_real
  refine ⟨?_, ?_, ?_, ?_, hq, ?_⟩
  · simp only [q_cam1, AngleAxisd.toQuaterniond, Vector3d.UnitY, e, mul_zero, mul_one]
  · simp only [q_cam1, R_y, e]
  · simp only [q_cam2, AngleAxisd.toQuaterniond, Vector3d.UnitZ, neg_pi_half_half,
      Real.cos_neg, Real.sin_neg, mul_zero, mul_one, neg_zero]
  · simp only [q_cam2, R_z, neg_pi_half_half, Real.cos_neg, Real.sin_neg]
  · refine ⟨_, _, _, camCallback_tf_log _ msg b w, ?_, ?_⟩ <;> simp only [hq]

end ViewAsteroid
